import Mathlib

/-!
Verification of the Earth-viewer bootstrap / layer-switch / weather-marker
logic of the Vison-Earth repository.

The development shallowly embeds the relevant TypeScript functions:

* `src/frontend/src/pages/EarthViewerPage.tsx` — two page variants in one
  file: the first defines `switchImageryLayer` (removes layers at index 1
  while more than one remains, then adds category layers) and a cleanup /
  zoom / weather-marker suite; the second defines `switchLayer`,
  `initCesium` (inline script injection) and a guard-free `fetchWeatherData`.
* `src/unnamed/part_007` — a third page variant whose `switchImageryLayer`
  removes every layer (index 0 loop) and re-adds a NASA GIBS base plus an
  optional tint overlay, whose `initCesium` awaits the library before the
  WebGL probe, and whose `fetchWeatherData` carries a re-entrancy guard.
* `src/unnamed/part_000` — the `cesium-loader` script: global
  `CESIUM_LOADED` / `CESIUM_READY` readiness state and `loadCesium`.

Numbers that are decimal in the source (alpha values, camera heights) are
embedded as rationals; DOM objects (script tags, entities, layers) are
embedded as counted or listed values. Effects of the third-party Cesium
API are modelled exactly as far as the page code observes them.
-/

set_option autoImplicit false

namespace VisonEarth

/-- Imagery tile-source descriptors, one constructor per provider kind the
page code constructs (EarthViewerPage.tsx and part_007). -/
inductive Provider where
  | nasaGibs
  | naturalEarth
  | osm
  | ionAsset (assetId : Nat)
  | grid (cells : Nat) (color : String)
  | singleTile (source : String)
deriving DecidableEq, Repr

/-- One imagery layer as the page code observes it: its provider and the
alpha subsequently assigned to the returned layer object (1 when the code
leaves the default). -/
structure Layer where
  provider : Provider
  alpha : ℚ
deriving DecidableEq, Repr

/-- Weather marker entities: the page only ever inspects identity
(`entities.contains`) and membership, so an entity is an id. -/
abbrev EntityId := Nat

/-- Cesium viewer state as observed by the page code. -/
structure Viewer where
  destroyed : Bool
  layers : List Layer
  entities : List EntityId
  globeMaterial : Option String
  cameraHeight : ℚ
deriving DecidableEq, Repr

/-- Current weather payload, from `CurrentWeather` in weatherService.ts. -/
structure CurrentWeather where
  temperature : ℚ
  windspeed : ℚ
  winddirection : ℚ
  weathercode : Nat
  time : String
deriving DecidableEq, Repr

/-- Selected location React state (`selectedLocation`). -/
structure SelectedLocation where
  lat : ℚ
  lon : ℚ
  name : String
deriving DecidableEq, Repr

/-- React state and refs of the Earth-viewer page component. -/
structure PageState where
  viewerRef : Option Viewer
  activeLayer : String
  weatherData : Option CurrentWeather
  weatherLoading : Bool
  weatherError : Option String
  selectedLocation : Option SelectedLocation
  weatherEntityRef : Option EntityId
  nextEntityId : EntityId
  pageError : Option String
  loading : Bool
deriving DecidableEq, Repr

/-- Layer names offered by the page UI (keys of `LAYER_ICONS`). -/
def supportedLayers : List String :=
  ["Satellite", "Live", "HD", "Radar", "Precipitation", "Wind",
   "Temperature", "Humidity", "Pressure"]

/-- Loop `while (imageryLayers.length > 0) imageryLayers.remove(imageryLayers.get(0));`
from part_007 line 200 and EarthViewerPage.tsx line 931. Each iteration
re-fetches element 0 of the re-indexed collection and removes it. -/
def removeWhileGt0 {α : Type} : List α → List α
  | [] => []
  | _ :: rest => removeWhileGt0 rest

/-- Iterations of the loop
`while (imageryLayers.length > 1) imageryLayers.remove(imageryLayers.get(1));`
from EarthViewerPage.tsx line 161, with explicit fuel. Each iteration
removes the element at index 1 of the re-indexed collection, so index 0 is
never removed. -/
def removeWhileGt1Aux {α : Type} : Nat → List α → List α
  | 0, l => l
  | fuel + 1, l => if l.length > 1 then removeWhileGt1Aux fuel (l.eraseIdx 1) else l

/-- The loop of EarthViewerPage.tsx line 161 run to completion: each
iteration shortens the collection by one, so `l.length` fuel always
suffices. -/
def removeWhileGt1 {α : Type} (l : List α) : List α :=
  removeWhileGt1Aux l.length l

theorem removeWhileGt0_eq_nil {α : Type} (l : List α) : removeWhileGt0 l = [] := by
  induction l with
  | nil => rfl
  | cons x rest ih => simpa [removeWhileGt0] using ih

theorem removeWhileGt1Aux_eq_take {α : Type} :
    ∀ (fuel : Nat) (l : List α), l.length ≤ fuel + 1 →
      removeWhileGt1Aux fuel l = l.take 1 := by
  intro fuel
  induction fuel with
  | zero =>
    intro l hl
    match l, hl with
    | [], _ => rfl
    | [x], _ => rfl
  | succ n ih =>
    intro l hl
    match l with
    | [] => rfl
    | [x] => rfl
    | x :: y :: rest =>
      have hlen : (x :: rest).length ≤ n + 1 := by
        simpa using Nat.le_of_succ_le_succ hl
      calc removeWhileGt1Aux (n + 1) (x :: y :: rest)
          = removeWhileGt1Aux n (x :: rest) := by
            simp [removeWhileGt1Aux, List.eraseIdx]
        _ = (x :: rest).take 1 := ih (x :: rest) hlen
        _ = (x :: y :: rest).take 1 := by simp

theorem removeWhileGt1_eq_take {α : Type} (l : List α) :
    removeWhileGt1 l = l.take 1 :=
  removeWhileGt1Aux_eq_take l.length l (Nat.le_succ_of_le (Nat.le_refl _))

/-- Guard shared by every mutating handler:
`!viewerRef.current || viewerRef.current.isDestroyed()`. -/
def isGone (s : PageState) : Bool :=
  match s.viewerRef with
  | none => true
  | some v => v.destroyed

/-- Categories that receive a colored grid overlay in part_007 lines
256-302 (the fall-through case group). -/
def weatherCategories : List String :=
  ["Radar", "Precipitation", "Wind", "Temperature", "Humidity", "Pressure"]

/-- Overlay color table of part_007 lines 264-285. -/
def weatherColor (name : String) : String :=
  if name = "Radar" then "BLUE"
  else if name = "Precipitation" then "CYAN"
  else if name = "Wind" then "WHITE"
  else if name = "Temperature" then "RED"
  else if name = "Humidity" then "GREEN"
  else if name = "Pressure" then "PURPLE"
  else "WHITE"

/-- Failure environment for one `switchImageryLayer` run (part_007):
whether constructing/adding the NASA GIBS base throws (caught at line 225),
whether `window.Cesium.GridImageryProvider` is present (line 288), and
whether the overlay try-block throws (caught at line 312). -/
structure SwitchEnv where
  primaryBaseFails : Bool
  gridAvailable : Bool
  overlayFails : Bool
deriving DecidableEq, Repr

/-- Base layer the part_007 switch ends up with: NASA GIBS WMTS (lines
207-224), or the bundled NaturalEarthII fallback when the primary add
throws (lines 228-232). -/
def resolvedBase (env : SwitchEnv) : Layer :=
  if env.primaryBaseFails then ⟨Provider.naturalEarth, 1⟩
  else ⟨Provider.nasaGibs, 1⟩

/-- Overlay layers added by the second try-block of part_007 (lines
236-307): OpenStreetMap at alpha 0.5 for Live; a colored 8-cell grid at
alpha 0.7 for the weather categories when GridImageryProvider is present;
nothing for Satellite, HD and unknown names. A throw inside the block is
caught at line 312 and leaves only the base layer. -/
def overlayFor (env : SwitchEnv) (name : String) : List Layer :=
  if env.overlayFails then []
  else if name = "Live" then [⟨Provider.osm, 1/2⟩]
  else if name ∈ weatherCategories then
    if env.gridAvailable then [⟨Provider.grid 8 (weatherColor name), 7/10⟩]
    else []
  else []

/-- Globe material assignment of part_007 lines 298-301: weather
categories tint the globe with the category color. -/
def globeMaterialFor (env : SwitchEnv) (name : String) (old : Option String) :
    Option String :=
  if ¬env.overlayFails ∧ name ∈ weatherCategories then some (weatherColor name)
  else old

/-- Embedding of `switchImageryLayer` from part_007 lines 191-316: guard,
`setActiveLayer(layerName)`, remove every layer (index 0 loop), add the
NASA GIBS base with NaturalEarthII fallback, then the category overlay and
globe material inside a second try-block. -/
def switchImageryLayerP7 (env : SwitchEnv) (s : PageState) (name : String) :
    PageState :=
  match s.viewerRef with
  | none => s
  | some v =>
    if v.destroyed then s
    else
      let cleared := removeWhileGt0 v.layers
      let withBase := cleared ++ [resolvedBase env]
      let final := withBase ++ overlayFor env name
      { s with
        activeLayer := name
        viewerRef := some { v with
          layers := final
          globeMaterial := globeMaterialFor env name v.globeMaterial } }

/-- Failure environment for one `switchImageryLayer` run of the first
EarthViewerPage.tsx variant: whether the selected add throws (caught at
line 345) and whether the fallback Ion add also throws (caught at 354). -/
structure SwitchEnvV1 where
  switchFails : Bool
  fallbackFails : Bool
deriving DecidableEq, Repr

/-- Layers appended per category by the first EarthViewerPage.tsx variant
(lines 167-344): each weather category adds an Ion Bing Aerial base plus a
tinted overlay; Satellite, Live and HD add a single Ion layer; unknown
names add the Ion asset-2 default. -/
def layersForV1 (name : String) : List Layer :=
  if name = "Satellite" then [⟨Provider.ionAsset 2, 1⟩]
  else if name = "Live" then [⟨Provider.ionAsset 3, 1⟩]
  else if name = "HD" then [⟨Provider.ionAsset 3812, 1⟩]
  else if name = "Radar" then
    [⟨Provider.ionAsset 2, 1⟩, ⟨Provider.singleTile "GOES16", 3/5⟩]
  else if name = "Precipitation" then
    [⟨Provider.ionAsset 2, 1⟩, ⟨Provider.grid 4 "BLUE", 1/2⟩]
  else if name = "Wind" then
    [⟨Provider.ionAsset 2, 1⟩, ⟨Provider.grid 8 "WHITE", 3/10⟩]
  else if name = "Temperature" then
    [⟨Provider.ionAsset 2, 1⟩, ⟨Provider.grid 6 "RED", 1/2⟩]
  else if name = "Humidity" then
    [⟨Provider.ionAsset 2, 1⟩, ⟨Provider.grid 5 "LIGHTGREEN", 2/5⟩]
  else if name = "Pressure" then
    [⟨Provider.ionAsset 2, 1⟩, ⟨Provider.grid 10 "PURPLE", 2/5⟩]
  else [⟨Provider.ionAsset 2, 1⟩]

/-- Embedding of `switchImageryLayer` from EarthViewerPage.tsx lines
152-358: guard, `setActiveLayer(layerName)`, remove layers at index 1
while more than one remains (the construction-time base at index 0 is
kept), then append the per-category layers; on a throw the catch appends
the Ion asset-2 fallback, and if that also throws nothing is appended. -/
def switchImageryLayerV1 (env : SwitchEnvV1) (s : PageState) (name : String) :
    PageState :=
  match s.viewerRef with
  | none => s
  | some v =>
    if v.destroyed then s
    else
      let kept := removeWhileGt1 v.layers
      let added :=
        if env.switchFails then
          if env.fallbackFails then [] else [⟨Provider.ionAsset 2, 1⟩]
        else layersForV1 name
      { s with
        activeLayer := name
        viewerRef := some { v with layers := kept ++ added } }

/-- Projection used by the layer-set statements: the imagery-layer
collection of the current viewer, empty when no viewer is referenced. -/
def viewerLayers (s : PageState) : List Layer :=
  match s.viewerRef with
  | none => []
  | some v => v.layers

/-- Construction-time base layer of the first EarthViewerPage.tsx variant:
the `TileMapServiceImageryProvider` over NaturalEarthII passed to the
`Viewer` constructor at lines 424-426. -/
def constructionBase : Layer := ⟨Provider.naturalEarth, 1⟩

/-- Live viewer immediately after bootstrap: one construction-time base
layer, no entity, default camera. -/
def viewerLive : Viewer :=
  { destroyed := false
    layers := [constructionBase]
    entities := []
    globeMaterial := none
    cameraHeight := 5000000 }

/-- Page state right after a successful bootstrap (`Ready`): live viewer,
default `activeLayer` value `Satellite`, no weather state yet. -/
def pageReady : PageState :=
  { viewerRef := some viewerLive
    activeLayer := "Satellite"
    weatherData := none
    weatherLoading := false
    weatherError := none
    selectedLocation := none
    weatherEntityRef := none
    nextEntityId := 0
    pageError := none
    loading := false }

theorem overlayFor_length_le_one (env : SwitchEnv) (name : String) :
    (overlayFor env name).length ≤ 1 := by
  unfold overlayFor
  split
  · simp
  · split
    · simp
    · split
      · split <;> simp
      · simp

/-- C1, counterexample. On the cited `switchImageryLayer` of
EarthViewerPage.tsx lines 152-358, switching a freshly bootstrapped viewer
to `Temperature` leaves three imagery layers, and the layer at index 0 is
the construction-time NaturalEarthII base, which is not among the layers
the `Temperature` case resolves — contradicting both the at-most-2 bound
and the base-at-index-0 clause of the claim. -/
theorem c1_counterexample :
    ¬ ((viewerLayers (switchImageryLayerV1 ⟨false, false⟩ pageReady "Temperature")).length ≤ 2) ∧
    (viewerLayers (switchImageryLayerV1 ⟨false, false⟩ pageReady "Temperature")).head? =
      some constructionBase ∧
    constructionBase ∉ layersForV1 "Temperature" := by
  decide

/-- C1 (amended): after `switchImageryLayer` of part_007 lines 191-316
completes on a live viewer and a supported category, the layer collection
is exactly the resolved base layer (NASA GIBS, or the NaturalEarthII
fallback when the primary provider failed) followed by the category
overlay, hence the base sits at index 0 and at most 2 layers are present.
The EarthViewerPage.tsx lines 152-358 variant does not satisfy this: it
keeps the construction-time base at index 0 and can leave 3 layers. -/
theorem c1_p7_base_at_zero_and_at_most_two (env : SwitchEnv) (s : PageState)
    (v : Viewer) (name : String) (hv : s.viewerRef = some v)
    (hd : v.destroyed = false) (_hn : name ∈ supportedLayers) :
    viewerLayers (switchImageryLayerP7 env s name) =
      resolvedBase env :: overlayFor env name ∧
    (viewerLayers (switchImageryLayerP7 env s name)).length ≤ 2 := by
  have hshape : viewerLayers (switchImageryLayerP7 env s name) =
      resolvedBase env :: overlayFor env name := by
    simp only [switchImageryLayerP7, hv, hd, if_false, Bool.false_eq_true,
      viewerLayers, removeWhileGt0_eq_nil, List.nil_append, List.cons_append,
      List.singleton_append]
  refine ⟨hshape, ?_⟩
  rw [hshape]
  have := overlayFor_length_le_one env name
  simp only [List.length_cons]
  omega

/-- C1, witness for `c1_p7_base_at_zero_and_at_most_two`: a live viewer,
category `Temperature`, grid provider available, no failures. -/
theorem c1_witness :
    viewerLive.destroyed = false ∧ "Temperature" ∈ supportedLayers ∧
    (viewerLayers (switchImageryLayerP7 ⟨false, true, false⟩ pageReady "Temperature") =
      resolvedBase ⟨false, true, false⟩ :: overlayFor ⟨false, true, false⟩ "Temperature" ∧
     (viewerLayers (switchImageryLayerP7 ⟨false, true, false⟩ pageReady "Temperature")).length ≤ 2) :=
  ⟨rfl, by decide,
    c1_p7_base_at_zero_and_at_most_two ⟨false, true, false⟩ pageReady viewerLive
      "Temperature" rfl rfl (by decide)⟩

/-- C3, counterexample. A switch whose add steps all throw (selected
provider and fallback both fail) still records the requested category in
`activeLayer`: on the cited EarthViewerPage.tsx variant the viewer is left
with only the construction-time base — no `Temperature` layer was
applied — yet `activeLayer` reads `Temperature`, because
`setActiveLayer(layerName)` runs at line 155, before any removal or
addition. -/
theorem c3_counterexample :
    (switchImageryLayerV1 ⟨true, true⟩ pageReady "Temperature").activeLayer =
      "Temperature" ∧
    viewerLayers (switchImageryLayerV1 ⟨true, true⟩ pageReady "Temperature") =
      [constructionBase] ∧
    (∀ l ∈ viewerLayers (switchImageryLayerV1 ⟨true, true⟩ pageReady "Temperature"),
      l ∉ layersForV1 "Temperature") := by
  decide

/-- C3 (amended): both cited switch variants update `activeLayer` to the
requested category unconditionally, before the removal, resolution and
addition steps — so even a switch in which every add step fails records
the requested category. -/
theorem c3_selector_updated_before_switch (envA : SwitchEnv) (envB : SwitchEnvV1)
    (s : PageState) (name : String) (h : isGone s = false) :
    (switchImageryLayerP7 envA s name).activeLayer = name ∧
    (switchImageryLayerV1 envB s name).activeLayer = name := by
  match hs : s.viewerRef with
  | none => simp [isGone, hs] at h
  | some v =>
    have hd : v.destroyed = false := by
      simpa [isGone, hs] using h
    constructor
    · simp [switchImageryLayerP7, hs, hd]
    · simp [switchImageryLayerV1, hs, hd]

/-- C3, witness for `c3_selector_updated_before_switch`: a live viewer and
environments in which every add step fails. -/
theorem c3_witness :
    isGone pageReady = false ∧
    ((switchImageryLayerP7 ⟨true, false, true⟩ pageReady "Wind").activeLayer = "Wind" ∧
     (switchImageryLayerV1 ⟨true, true⟩ pageReady "Wind").activeLayer = "Wind") :=
  ⟨by decide,
    c3_selector_updated_before_switch ⟨true, false, true⟩ ⟨true, true⟩ pageReady
      "Wind" (by decide)⟩

/-- C4, counterexample. The removal loop of the cited
EarthViewerPage.tsx lines 160-163 (`while (length > 1) remove(get(1))`)
run on a three-layer collection leaves `[constructionBase]`, not the empty
collection the claim requires before any new layer is added. -/
theorem c4_counterexample :
    removeWhileGt1 [constructionBase, ⟨Provider.ionAsset 2, 1⟩, ⟨Provider.osm, 1⟩] =
      [constructionBase] ∧
    removeWhileGt1 [constructionBase, ⟨Provider.ionAsset 2, 1⟩, ⟨Provider.osm, 1⟩] ≠
      ([] : List Layer) := by
  decide

/-- C4 (amended): the removal loops of part_007 line 200 and
EarthViewerPage.tsx line 931 (`while (length > 0) remove(get(0))`) empty
the collection for every starting collection, re-fetching element 0 each
iteration; the EarthViewerPage.tsx line 161 variant
(`while (length > 1) remove(get(1))`) instead leaves exactly the first
element, so only the former two leave the collection empty before new
layers are added. -/
theorem c4_removal_loop_results (l : List Layer) :
    removeWhileGt0 l = [] ∧ removeWhileGt1 l = l.take 1 :=
  ⟨removeWhileGt0_eq_nil l, removeWhileGt1_eq_take l⟩

/-- Global loader state installed by part_000: the number of loader script
tags appended to the document, the `CESIUM_LOADED` flag, the settled value
of the `CESIUM_READY` promise (`none` while pending, `some true` after
`CESIUM_RESOLVE(true)`, `some false` after `CESIUM_REJECT`), the callers
currently awaiting `CESIUM_READY`, and the outcome each finished caller of
`waitForCesium` observed. -/
structure LoaderState where
  scripts : Nat
  cesiumLoaded : Bool
  settled : Option Bool
  waiters : List Nat
  outcomes : List (Nat × Bool)
deriving DecidableEq, Repr

/-- Events of the single-threaded event loop relevant to the library
wait: a component calls `waitForCesium` (part_007 lines 57-87), or the
`CESIUM_READY` promise settles (part_000 resolves with `true` on script
load, rejects on failure or timeout). -/
inductive LoaderEvent where
  | callWait (id : Nat)
  | settle (o : Bool)
deriving DecidableEq, Repr

/-- One event-loop step. `callWait` embeds `waitForCesium`: if
`isCesiumLoaded()` it returns `true` immediately; otherwise it awaits the
already-settled or pending `CESIUM_READY` promise (an awaited rejection is
caught at part_007 lines 83-86 and becomes `false`). It appends no script
tag. `settle` embeds the one-shot promise: a second settlement of
`CESIUM_READY` is a no-op, and resolution with `true` is always paired
with `CESIUM_LOADED = true` (part_000 lines 31-32, 56-57, 81-82); every
pending waiter observes the settled value. -/
def stepLoader (s : LoaderState) : LoaderEvent → LoaderState
  | LoaderEvent.callWait id =>
    if s.cesiumLoaded then { s with outcomes := (id, true) :: s.outcomes }
    else
      match s.settled with
      | some o => { s with outcomes := (id, o) :: s.outcomes }
      | none => { s with waiters := id :: s.waiters }
  | LoaderEvent.settle o =>
    match s.settled with
    | some _ => s
    | none =>
      { s with
        settled := some o
        cesiumLoaded := s.cesiumLoaded || o
        outcomes := s.waiters.map (fun i => (i, o)) ++ s.outcomes
        waiters := [] }

/-- Event-loop run over a list of events. -/
def runLoader (s : LoaderState) (events : List LoaderEvent) : LoaderState :=
  events.foldl stepLoader s

/-- Module-level initialisation of part_000 lines 107-115: if
`window.Cesium` is already present, set `CESIUM_LOADED` and resolve
immediately without touching the DOM; otherwise `loadCesium()` appends
exactly one loader script tag and leaves the promise pending. -/
def moduleInit (cesiumAlready : Bool) : LoaderState :=
  if cesiumAlready then
    { scripts := 0, cesiumLoaded := true, settled := some true
      waiters := [], outcomes := [] }
  else
    { scripts := 1, cesiumLoaded := false, settled := none
      waiters := [], outcomes := [] }

/-- Invariant carried through every event-loop run: `CESIUM_LOADED`
implies the promise resolved with `true`, and every recorded caller
outcome equals the settled value of `CESIUM_READY`. -/
def LoaderInv (s : LoaderState) : Prop :=
  (s.cesiumLoaded = true → s.settled = some true) ∧
  (∀ p ∈ s.outcomes, s.settled = some p.2)

theorem stepLoader_scripts (s : LoaderState) (e : LoaderEvent) :
    (stepLoader s e).scripts = s.scripts := by
  cases e with
  | callWait id =>
    by_cases h : s.cesiumLoaded <;> cases hs : s.settled <;>
      simp [stepLoader, h, hs]
  | settle o => cases hs : s.settled <;> simp [stepLoader, hs]

theorem stepLoader_settled_mono (s : LoaderState) (e : LoaderEvent) (b : Bool)
    (h : s.settled = some b) : (stepLoader s e).settled = some b := by
  cases e with
  | callWait id =>
    by_cases hc : s.cesiumLoaded <;> simp [stepLoader, hc, h]
  | settle o => simp [stepLoader, h]

theorem stepLoader_inv (s : LoaderState) (e : LoaderEvent) (h : LoaderInv s) :
    LoaderInv (stepLoader s e) := by
  obtain ⟨hload, hout⟩ := h
  cases e with
  | callWait id =>
    cases hc : s.cesiumLoaded with
    | true =>
      constructor
      · intro _
        simpa [stepLoader, hc] using hload hc
      · intro p hp
        simp only [stepLoader, hc, if_true] at hp ⊢
        rcases List.mem_cons.mp hp with rfl | hp
        · exact hload hc
        · exact hout p hp
    | false =>
      cases hs : s.settled with
      | some o =>
        constructor
        · intro hl
          simp [stepLoader, hc, hs] at hl
        · intro p hp
          simp only [stepLoader, hc, hs, Bool.false_eq_true, if_false] at hp ⊢
          rcases List.mem_cons.mp hp with rfl | hp
          · rfl
          · have := hout p hp
            rw [hs] at this
            exact this
      | none =>
        constructor
        · intro hl
          simp [stepLoader, hc, hs] at hl
        · intro p hp
          simp only [stepLoader, hc, hs, Bool.false_eq_true, if_false] at hp ⊢
          have := hout p hp
          rw [hs] at this
          exact this
  | settle o =>
    cases hs : s.settled with
    | some b =>
      have hstep : stepLoader s (LoaderEvent.settle o) = s := by
        simp [stepLoader, hs]
      rw [hstep]
      exact ⟨hload, hout⟩
    | none =>
      have hempty : s.outcomes = [] := by
        cases ho : s.outcomes with
        | nil => rfl
        | cons p rest =>
          have := hout p (by simp [ho])
          rw [hs] at this
          exact absurd this (by simp)
      constructor
      · intro hl
        simp only [stepLoader, hs] at hl ⊢
        have hcl : s.cesiumLoaded = false := by
          cases hc2 : s.cesiumLoaded
          · rfl
          · have := hload hc2
            rw [hs] at this
            exact absurd this (by simp)
        rw [hcl] at hl
        simp only [Bool.false_or] at hl
        simp [hl]
      · intro p hp
        simp only [stepLoader, hs, hempty, List.append_nil] at hp ⊢
        rcases List.mem_map.mp hp with ⟨i, _, rfl⟩
        rfl

theorem runLoader_scripts (events : List LoaderEvent) (s : LoaderState) :
    (runLoader s events).scripts = s.scripts := by
  induction events generalizing s with
  | nil => rfl
  | cons e rest ih =>
    simp only [runLoader, List.foldl_cons] at *
    rw [ih (stepLoader s e), stepLoader_scripts]

theorem runLoader_inv (events : List LoaderEvent) (s : LoaderState)
    (h : LoaderInv s) : LoaderInv (runLoader s events) := by
  induction events generalizing s with
  | nil => exact h
  | cons e rest ih =>
    simp only [runLoader, List.foldl_cons] at *
    exact ih (stepLoader s e) (stepLoader_inv s e h)

theorem moduleInit_inv (b : Bool) : LoaderInv (moduleInit b) := by
  cases b <;> exact ⟨by simp [moduleInit], by simp [moduleInit]⟩

/-- C2, counterexample. The cited inline loader of EarthViewerPage.tsx
lines 1061-1070 appends a script tag whenever `window.Cesium` is absent,
with no check for an already-appended tag; the synchronous prefix of
`initCesium` up to the `await` of the script load is embedded here. -/
structure InlineLoaderState where
  cesiumPresent : Bool
  scripts : Nat
deriving DecidableEq, Repr

/-- Synchronous prefix of EarthViewerPage.tsx `initCesium` lines
1061-1070: `if (!window.Cesium) { ...append script...}`, run up to the
suspension point that awaits the script load. -/
def inlineInjectStep (s : InlineLoaderState) : InlineLoaderState :=
  if s.cesiumPresent then s else { s with scripts := s.scripts + 1 }

/-- C2, counterexample: two invocations of the cited
EarthViewerPage.tsx inline loader that both start before the library is
present (each runs its synchronous prefix before either script load
completes) append two loader script tags — not the exactly-one tag the
claim requires. -/
theorem c2_counterexample :
    (inlineInjectStep (inlineInjectStep ⟨false, 0⟩)).scripts = 2 ∧
    (inlineInjectStep (inlineInjectStep ⟨false, 0⟩)).scripts ≠ 1 := by
  decide

/-- C2 (amended): against the part_000 loader, any number of concurrent
or subsequent `waitForCesium` calls appends no loader script tag — the
tag count stays at what the one-time module initialisation produced (one
when the library was not already present, zero otherwise) — and all
callers observe the same outcome, the single settled value of
`CESIUM_READY`; the inline loader in EarthViewerPage.tsx `initCesium`,
by contrast, appends a fresh tag on every invocation that starts before
the library is present. -/
theorem c2_wait_shares_one_outcome_no_extra_tags (b : Bool)
    (events : List LoaderEvent) :
    (runLoader (moduleInit b) events).scripts = (moduleInit b).scripts ∧
    ∀ p ∈ (runLoader (moduleInit b) events).outcomes,
      ∀ q ∈ (runLoader (moduleInit b) events).outcomes, p.2 = q.2 := by
  refine ⟨runLoader_scripts events (moduleInit b), ?_⟩
  intro p hp q hq
  have hinv := runLoader_inv events (moduleInit b) (moduleInit_inv b)
  have h1 := hinv.2 p hp
  have h2 := hinv.2 q hq
  have := h1.symm.trans h2
  simpa using this

/-- Environment of one `initCesium` run: the outcome of each fallible step
the code branches on. `cesiumLoads` is the result of the library wait
(`waitForCesium` or the inline script load), `webglSupported` is what the
capability probe reports, and the remaining flags cover the container
check, the Ion token step and viewer construction. -/
structure InitEnv where
  cesiumLoads : Bool
  webglSupported : Bool
  containerPresent : Bool
  cesiumAlreadyPresent : Bool
  ionAvailable : Bool
  viewerCtorFails : Bool
deriving DecidableEq, Repr

/-- Observable result of one `initCesium` run: whether the library-load
step was executed at all, how many loader script tags it appended,
whether a viewer was constructed, and the final `error` / `loading` React
state (a non-`none` error replaces the viewer UI with the fallback
visualisation or the error panel). -/
structure InitResult where
  loaderRan : Bool
  scriptsInjected : Nat
  viewerConstructed : Bool
  errorSet : Option String
  loading : Bool
deriving DecidableEq, Repr

/-- Embedding of `initCesium` from part_007 lines 327-498. Its first step
awaits `waitForCesium()` (line 330) — the library-load wait runs before
anything else — and only afterwards does it probe WebGL (line 341), check
the container, set the Ion token and construct the viewer. Each failed
step sets `error`, clears `loading` and returns without a viewer. -/
def initCesiumP7 (env : InitEnv) : InitResult :=
  if ¬env.cesiumLoads then
    { loaderRan := true, scriptsInjected := 0, viewerConstructed := false
      errorSet := some "Cesium library not loaded", loading := false }
  else if ¬env.webglSupported then
    { loaderRan := true, scriptsInjected := 0, viewerConstructed := false
      errorSet := some "WebGL is not supported", loading := false }
  else if ¬env.containerPresent then
    { loaderRan := true, scriptsInjected := 0, viewerConstructed := false
      errorSet := some "Container element not found", loading := false }
  else if ¬env.ionAvailable then
    { loaderRan := true, scriptsInjected := 0, viewerConstructed := false
      errorSet := some "Failed to set Cesium access token", loading := false }
  else if env.viewerCtorFails then
    { loaderRan := true, scriptsInjected := 0, viewerConstructed := false
      errorSet := some "Failed to initialize the Earth viewer", loading := false }
  else
    { loaderRan := true, scriptsInjected := 0, viewerConstructed := true
      errorSet := none, loading := false }

/-- Embedding of `initCesium` from the second EarthViewerPage.tsx variant,
lines 1048-1159. Here the WebGL probe runs first (line 1053); only after
it succeeds does the code inject the inline loader script tag when
`window.Cesium` is absent (lines 1061-1070), and only after the library is
available does it construct the viewer. -/
def initCesiumV2 (env : InitEnv) : InitResult :=
  if ¬env.webglSupported then
    { loaderRan := false, scriptsInjected := 0, viewerConstructed := false
      errorSet := some "WebGL is not supported in your browser", loading := false }
  else
    let scripts := if env.cesiumAlreadyPresent then 0 else 1
    let ran := ¬env.cesiumAlreadyPresent
    if ¬env.cesiumAlreadyPresent ∧ ¬env.cesiumLoads then
      { loaderRan := ran, scriptsInjected := scripts, viewerConstructed := false
        errorSet := some "Failed to load Cesium", loading := false }
    else if ¬env.containerPresent then
      { loaderRan := ran, scriptsInjected := scripts, viewerConstructed := false
        errorSet := none, loading := true }
    else if env.viewerCtorFails then
      { loaderRan := ran, scriptsInjected := scripts, viewerConstructed := false
        errorSet := some "Failed to create Earth viewer", loading := false }
    else
      { loaderRan := ran, scriptsInjected := scripts, viewerConstructed := true
        errorSet := none, loading := false }

/-- C5, counterexample. Run part_007 `initCesium` with the WebGL probe
forced to fail: no viewer is constructed and the error state is entered,
but the library-load step has already run — `waitForCesium()` at line 330
is awaited before the probe at line 341 — contradicting the clause that
the library loader is never run when the probe returns false. -/
theorem c5_counterexample :
    (initCesiumP7 ⟨true, false, true, false, true, false⟩).loaderRan = true ∧
    (initCesiumP7 ⟨true, false, true, false, true, false⟩).viewerConstructed = false := by
  decide

/-- C5 (amended): whenever the WebGL probe reports false, neither
`initCesium` variant constructs a viewer; the EarthViewerPage.tsx variant
also sets the error state (which replaces the viewer UI with the fallback
visualisation), runs no library load and injects no loader script tag,
while the part_007 variant sets the error state but has always already run
the library wait, since it awaits `waitForCesium()` before probing. -/
theorem c5_probe_fail_no_viewer (env : InitEnv)
    (h : env.webglSupported = false) :
    (initCesiumV2 env).viewerConstructed = false ∧
    (initCesiumV2 env).scriptsInjected = 0 ∧
    (initCesiumV2 env).loaderRan = false ∧
    (initCesiumV2 env).errorSet.isSome = true ∧
    (initCesiumP7 env).viewerConstructed = false ∧
    (initCesiumP7 env).errorSet.isSome = true ∧
    (initCesiumP7 env).loaderRan = true := by
  have hv2 : initCesiumV2 env =
      { loaderRan := false, scriptsInjected := 0, viewerConstructed := false
        errorSet := some "WebGL is not supported in your browser", loading := false } := by
    simp [initCesiumV2, h]
  refine ⟨by rw [hv2], by rw [hv2], by rw [hv2], by rw [hv2]; rfl, ?_, ?_, ?_⟩
  all_goals
    cases hc : env.cesiumLoads <;> simp [initCesiumP7, h, hc]

/-- C5, witness for `c5_probe_fail_no_viewer`: an environment where the
library loads but the probe fails. -/
theorem c5_witness :
    (⟨true, false, true, false, true, false⟩ : InitEnv).webglSupported = false ∧
    ((initCesiumV2 ⟨true, false, true, false, true, false⟩).viewerConstructed = false ∧
     (initCesiumV2 ⟨true, false, true, false, true, false⟩).scriptsInjected = 0 ∧
     (initCesiumV2 ⟨true, false, true, false, true, false⟩).loaderRan = false ∧
     (initCesiumV2 ⟨true, false, true, false, true, false⟩).errorSet.isSome = true ∧
     (initCesiumP7 ⟨true, false, true, false, true, false⟩).viewerConstructed = false ∧
     (initCesiumP7 ⟨true, false, true, false, true, false⟩).errorSet.isSome = true ∧
     (initCesiumP7 ⟨true, false, true, false, true, false⟩).loaderRan = true) :=
  ⟨rfl, c5_probe_fail_no_viewer ⟨true, false, true, false, true, false⟩ rfl⟩

/-- Removal step of `addWeatherMarker` (part_007 lines 133-135,
EarthViewerPage.tsx lines 94-96): when `weatherEntityRef` points at an
entity the viewer still contains, remove it; a stale reference to an
entity of a destroyed previous viewer is left alone. -/
def removePreviousMarker (ref : Option EntityId) (ents : List EntityId) :
    List EntityId :=
  match ref with
  | some r => if r ∈ ents then ents.erase r else ents
  | none => ents

/-- Embedding of `addWeatherMarker` from part_007 lines 128-168 and
EarthViewerPage.tsx lines 89-129: guard on a live viewer, remove the
previous marker entity if still attached, add a fresh entity, store it in
`weatherEntityRef`, and fly the camera to altitude 1000000. The entity
position, billboard and label are not observed by any claim and are
abstracted to the entity identity. -/
def addWeatherMarker (s : PageState) : PageState :=
  match s.viewerRef with
  | none => s
  | some v =>
    if v.destroyed then s
    else
      let ents := removePreviousMarker s.weatherEntityRef v.entities
      { s with
        viewerRef := some { v with
          entities := ents ++ [s.nextEntityId]
          cameraHeight := 1000000 }
        weatherEntityRef := some s.nextEntityId
        nextEntityId := s.nextEntityId + 1 }

/-- Embedding of `fetchWeatherData` from EarthViewerPage.tsx lines 64-86
and part_007 lines 103-125. The guard `if (weatherLoading) return;`
short-circuits re-entrant calls before any request or state change.
Otherwise the flag is raised, the error cleared, the network result
(`result`) handled — success stores the data and location and adds the
marker when the viewer is live, failure stores the error message and
leaves everything else alone — and the `finally` block clears the flag.
The returned Bool records whether a network request was issued. -/
def fetchWeatherData (s : PageState) (lat lon : ℚ) (locationName : String)
    (result : Except Unit CurrentWeather) : PageState × Bool :=
  if s.weatherLoading then (s, false)
  else
    match result with
    | Except.ok data =>
      let s1 := { s with
        weatherError := none
        weatherData := some data
        selectedLocation := some ⟨lat, lon, locationName⟩ }
      let s2 := if isGone s1 then s1 else addWeatherMarker s1
      ({ s2 with weatherLoading := false }, true)
    | Except.error _ =>
      ({ s with
          weatherError := some "Failed to fetch weather data. Please try again."
          weatherLoading := false }, true)

/-- Embedding of `handleZoomIn` (EarthViewerPage.tsx lines 519-525):
guarded by the liveness check, zooms by a fifth of the camera height. -/
def handleZoomIn (s : PageState) : PageState :=
  match s.viewerRef with
  | none => s
  | some v =>
    if v.destroyed then s
    else { s with viewerRef := some { v with
      cameraHeight := v.cameraHeight - v.cameraHeight * (1/5) } }

/-- Embedding of `handleZoomOut` (EarthViewerPage.tsx lines 528-534). -/
def handleZoomOut (s : PageState) : PageState :=
  match s.viewerRef with
  | none => s
  | some v =>
    if v.destroyed then s
    else { s with viewerRef := some { v with
      cameraHeight := v.cameraHeight + v.cameraHeight * (1/5) } }

/-- Raw Cesium `destroy()`: destroying an already-destroyed object is the
error case the page-level guards exist to avoid. -/
def cesiumDestroy (v : Viewer) : Except String Viewer :=
  if v.destroyed then Except.error "This object was destroyed"
  else Except.ok { v with destroyed := true, layers := [], entities := [] }

/-- Embedding of the unmount cleanup (EarthViewerPage.tsx lines 509-515):
`if (viewerRef.current && !viewerRef.current.isDestroyed()) { destroy();
viewerRef.current = null; }`. -/
def cleanupViewer (s : PageState) : Except String PageState :=
  match s.viewerRef with
  | none => Except.ok s
  | some v =>
    if v.destroyed then Except.ok s
    else
      match cesiumDestroy v with
      | Except.ok _ => Except.ok { s with viewerRef := none }
      | Except.error e => Except.error e

/-- Cleanup as a state transformer; the guard keeps the error branch of
`cleanupViewer` unreachable. -/
def cleanupRun (s : PageState) : PageState :=
  match cleanupViewer s with
  | Except.ok s2 => s2
  | Except.error _ => s

/-- Viewer (re)construction of part_007 lines 381-433: a fresh viewer with
the constructor-supplied NASA GIBS base layer and an empty entity
collection; the React refs holding weather state persist across it. -/
def freshViewer : Viewer :=
  { destroyed := false
    layers := [⟨Provider.nasaGibs, 1⟩]
    entities := []
    globeMaterial := none
    cameraHeight := 8000000 }

/-- Viewer replacement: the page stores the freshly constructed viewer. -/
def bootstrapViewer (s : PageState) : PageState :=
  { s with viewerRef := some freshViewer }

/-- User-interaction and lifecycle events that reach the page handlers. -/
inductive PageOp where
  | fetchOk (lat lon : ℚ) (name : String) (w : CurrentWeather)
  | fetchErr (lat lon : ℚ) (name : String)
  | switchP7op (env : SwitchEnv) (name : String)
  | switchV1op (env : SwitchEnvV1) (name : String)
  | zoomInOp
  | zoomOutOp
  | unmount
  | remount

/-- Dispatch of one page event to the corresponding handler. -/
def applyOp (s : PageState) : PageOp → PageState
  | PageOp.fetchOk lat lon name w => (fetchWeatherData s lat lon name (Except.ok w)).1
  | PageOp.fetchErr lat lon name => (fetchWeatherData s lat lon name (Except.error ())).1
  | PageOp.switchP7op env name => switchImageryLayerP7 env s name
  | PageOp.switchV1op env name => switchImageryLayerV1 env s name
  | PageOp.zoomInOp => handleZoomIn s
  | PageOp.zoomOutOp => handleZoomOut s
  | PageOp.unmount => cleanupRun s
  | PageOp.remount => bootstrapViewer s

/-- Run of a sequence of page events. -/
def runPage (s : PageState) (ops : List PageOp) : PageState :=
  ops.foldl applyOp s

/-- Weather-marker entities attached to the current viewer. -/
def markerEntities (s : PageState) : List EntityId :=
  match s.viewerRef with
  | none => []
  | some v => v.entities

/-- Fresh page state at mount, before any viewer exists. -/
def pageMount : PageState :=
  { viewerRef := none
    activeLayer := "Satellite"
    weatherData := none
    weatherLoading := false
    weatherError := none
    selectedLocation := none
    weatherEntityRef := none
    nextEntityId := 0
    pageError := none
    loading := true }

/-- Marker invariant: either no weather marker is attached, or exactly the
one `weatherEntityRef` points at. -/
def MarkerInv (s : PageState) : Prop :=
  markerEntities s = [] ∨
  ∃ r, s.weatherEntityRef = some r ∧ markerEntities s = [r]

theorem markerInv_of_fields_eq (s t : PageState)
    (he : markerEntities t = markerEntities s)
    (hr : t.weatherEntityRef = s.weatherEntityRef) (h : MarkerInv s) :
    MarkerInv t := by
  rcases h with h0 | ⟨r, hrr, hee⟩
  · exact Or.inl (he.trans h0)
  · exact Or.inr ⟨r, hr.trans hrr, he.trans hee⟩

theorem removePreviousMarker_empty (s : PageState) (v : Viewer)
    (hs : s.viewerRef = some v) (h : MarkerInv s) :
    removePreviousMarker s.weatherEntityRef v.entities = [] := by
  rcases h with h0 | ⟨r, hr, hee⟩
  · have hv : v.entities = [] := by simpa [markerEntities, hs] using h0
    cases s.weatherEntityRef <;> simp [removePreviousMarker, hv]
  · have hv : v.entities = [r] := by simpa [markerEntities, hs] using hee
    simp [removePreviousMarker, hr, hv]

theorem addWeatherMarker_inv (s : PageState) (h : MarkerInv s) :
    MarkerInv (addWeatherMarker s) := by
  match hs : s.viewerRef with
  | none =>
    exact markerInv_of_fields_eq s _ (by simp [addWeatherMarker, hs])
      (by simp [addWeatherMarker, hs]) h
  | some v =>
    by_cases hd : v.destroyed
    · exact markerInv_of_fields_eq s _ (by simp [addWeatherMarker, hs, hd])
        (by simp [addWeatherMarker, hs, hd]) h
    · right
      refine ⟨s.nextEntityId, by simp [addWeatherMarker, hs, hd], ?_⟩
      have hempty := removePreviousMarker_empty s v hs h
      simp [addWeatherMarker, hs, hd, markerEntities, hempty]

theorem applyOp_inv (s : PageState) (op : PageOp) (h : MarkerInv s) :
    MarkerInv (applyOp s op) := by
  cases op with
  | fetchOk lat lon name w =>
    by_cases hl : s.weatherLoading = true
    · simpa [applyOp, fetchWeatherData, hl] using h
    · have hlf : s.weatherLoading = false := by simpa using hl
      simp only [applyOp, fetchWeatherData, hlf, Bool.false_eq_true, if_false]
      refine markerInv_of_fields_eq _ _ rfl rfl ?_
      split
      · exact markerInv_of_fields_eq s _ rfl rfl h
      · exact addWeatherMarker_inv _ (markerInv_of_fields_eq s _ rfl rfl h)
  | fetchErr lat lon name =>
    by_cases hl : s.weatherLoading <;>
      exact markerInv_of_fields_eq s _
        (by simp [applyOp, fetchWeatherData, hl, markerEntities])
        (by simp [applyOp, fetchWeatherData, hl]) h
  | switchP7op env name =>
    match hs : s.viewerRef with
    | none =>
      exact markerInv_of_fields_eq s _ (by simp [applyOp, switchImageryLayerP7, hs])
        (by simp [applyOp, switchImageryLayerP7, hs]) h
    | some v =>
      by_cases hd : v.destroyed <;>
        exact markerInv_of_fields_eq s _
          (by simp [applyOp, switchImageryLayerP7, hs, hd, markerEntities])
          (by simp [applyOp, switchImageryLayerP7, hs, hd]) h
  | switchV1op env name =>
    match hs : s.viewerRef with
    | none =>
      exact markerInv_of_fields_eq s _ (by simp [applyOp, switchImageryLayerV1, hs])
        (by simp [applyOp, switchImageryLayerV1, hs]) h
    | some v =>
      by_cases hd : v.destroyed <;>
        exact markerInv_of_fields_eq s _
          (by simp [applyOp, switchImageryLayerV1, hs, hd, markerEntities])
          (by simp [applyOp, switchImageryLayerV1, hs, hd]) h
  | zoomInOp =>
    match hs : s.viewerRef with
    | none =>
      exact markerInv_of_fields_eq s _ (by simp [applyOp, handleZoomIn, hs])
        (by simp [applyOp, handleZoomIn, hs]) h
    | some v =>
      by_cases hd : v.destroyed <;>
        exact markerInv_of_fields_eq s _
          (by simp [applyOp, handleZoomIn, hs, hd, markerEntities])
          (by simp [applyOp, handleZoomIn, hs, hd]) h
  | zoomOutOp =>
    match hs : s.viewerRef with
    | none =>
      exact markerInv_of_fields_eq s _ (by simp [applyOp, handleZoomOut, hs])
        (by simp [applyOp, handleZoomOut, hs]) h
    | some v =>
      by_cases hd : v.destroyed <;>
        exact markerInv_of_fields_eq s _
          (by simp [applyOp, handleZoomOut, hs, hd, markerEntities])
          (by simp [applyOp, handleZoomOut, hs, hd]) h
  | unmount =>
    match hs : s.viewerRef with
    | none =>
      exact markerInv_of_fields_eq s _
        (by simp [applyOp, cleanupRun, cleanupViewer, hs])
        (by simp [applyOp, cleanupRun, cleanupViewer, hs]) h
    | some v =>
      by_cases hd : v.destroyed
      · exact markerInv_of_fields_eq s _
          (by simp [applyOp, cleanupRun, cleanupViewer, hs, hd])
          (by simp [applyOp, cleanupRun, cleanupViewer, hs, hd]) h
      · left
        simp [applyOp, cleanupRun, cleanupViewer, hs, hd, cesiumDestroy,
          markerEntities]
  | remount =>
    left
    simp [applyOp, bootstrapViewer, freshViewer, markerEntities]

theorem runPage_inv (ops : List PageOp) (s : PageState) (h : MarkerInv s) :
    MarkerInv (runPage s ops) := by
  induction ops generalizing s with
  | nil => exact h
  | cons op rest ih =>
    simp only [runPage, List.foldl_cons] at *
    exact ih (applyOp s op) (applyOp_inv s op h)

/-- C6: starting from a freshly mounted page, after any sequence of
weather fetches (successful or failed), layer switches, zooms, unmounts
and viewer re-creations, at most one weather-marker entity is attached to
the viewer — `addWeatherMarker` always removes the previously recorded
marker (when still attached) before adding the new one. -/
theorem c6_at_most_one_marker (ops : List PageOp) :
    (markerEntities (runPage pageMount ops)).length ≤ 1 := by
  have h := runPage_inv ops pageMount (Or.inl (by simp [markerEntities, pageMount]))
  rcases h with h0 | ⟨r, _, hee⟩
  · simp [h0]
  · simp [hee]

/-- C7: when the weather fetch fails on a non-re-entrant call, the error
message is stored for the UI, and the weather data, selected location,
viewer (and with it the previously displayed marker), marker reference,
active layer and page error are all left unchanged; the loading flag ends
cleared, so the page keeps running. -/
theorem c7_fetch_failure_preserves_state (s : PageState) (lat lon : ℚ)
    (locationName : String) (h : s.weatherLoading = false) :
    (fetchWeatherData s lat lon locationName (Except.error ())).1 =
      { s with
        weatherError := some "Failed to fetch weather data. Please try again."
        weatherLoading := false } := by
  simp [fetchWeatherData, h]

/-- C7, witness for `c7_fetch_failure_preserves_state`: a failed fetch on
the ready page preserves the viewer and marker state. -/
theorem c7_witness :
    pageReady.weatherLoading = false ∧
    (fetchWeatherData pageReady 20 78 "India" (Except.error ())).1 =
      { pageReady with
        weatherError := some "Failed to fetch weather data. Please try again."
        weatherLoading := false } :=
  ⟨rfl, c7_fetch_failure_preserves_state pageReady 20 78 "India" rfl⟩

/-- C10: while a previous weather fetch is in flight
(`weatherLoading = true`), `fetchWeatherData` returns immediately: no
network request is issued and the page state is returned unmodified. -/
theorem c10_reentrancy_guard (s : PageState) (lat lon : ℚ)
    (locationName : String) (result : Except Unit CurrentWeather)
    (h : s.weatherLoading = true) :
    fetchWeatherData s lat lon locationName result = (s, false) := by
  simp [fetchWeatherData, h]

/-- C10, witness for `c10_reentrancy_guard`: a call while a fetch is in
flight changes nothing even for a successful network result. -/
theorem c10_witness :
    ({ pageReady with weatherLoading := true } : PageState).weatherLoading = true ∧
    fetchWeatherData { pageReady with weatherLoading := true } 20 78 "India"
        (Except.ok ⟨31, 12, 180, 2, "2025-01-01T00:00"⟩) =
      ({ pageReady with weatherLoading := true }, false) :=
  ⟨rfl, c10_reentrancy_guard { pageReady with weatherLoading := true } 20 78
    "India" (Except.ok ⟨31, 12, 180, 2, "2025-01-01T00:00"⟩) rfl⟩

/-- Page state whose viewer has been destroyed but whose ref still holds
the handle (the window between `destroy()` and nulling the ref, or a
handle destroyed elsewhere). -/
def pageDead : PageState :=
  { pageReady with viewerRef := some { viewerLive with destroyed := true } }

/-- C8: the teardown path is idempotent and never throws — on a handle
that is already destroyed (or already nulled) a second cleanup returns
the state unchanged without reaching the raw Cesium `destroy()`, and
every guarded operation (zoom in/out, either layer switch, the weather
marker update) is a no-op on such a state; moreover cleanup of any state
succeeds and cleaning the result again is a no-op. -/
theorem c8_destroy_idempotent_and_noops (s t : PageState) (env : SwitchEnv)
    (envB : SwitchEnvV1) (name : String) (h : isGone s = true) :
    cleanupViewer s = Except.ok s ∧
    handleZoomIn s = s ∧
    handleZoomOut s = s ∧
    switchImageryLayerP7 env s name = s ∧
    switchImageryLayerV1 envB s name = s ∧
    addWeatherMarker s = s ∧
    ∃ u, cleanupViewer t = Except.ok u ∧ cleanupViewer u = Except.ok u := by
  have hidem : ∃ u, cleanupViewer t = Except.ok u ∧ cleanupViewer u = Except.ok u := by
    match ht : t.viewerRef with
    | none => exact ⟨t, by simp [cleanupViewer, ht], by simp [cleanupViewer, ht]⟩
    | some v =>
      by_cases hd : v.destroyed
      · exact ⟨t, by simp [cleanupViewer, ht, hd], by simp [cleanupViewer, ht, hd]⟩
      · refine ⟨{ t with viewerRef := none }, ?_, ?_⟩
        · simp [cleanupViewer, ht, hd, cesiumDestroy]
        · simp [cleanupViewer]
  match hs : s.viewerRef with
  | none =>
    refine ⟨?_, ?_, ?_, ?_, ?_, ?_, hidem⟩ <;>
      simp [cleanupViewer, handleZoomIn, handleZoomOut, switchImageryLayerP7,
        switchImageryLayerV1, addWeatherMarker, hs]
  | some v =>
    have hd : v.destroyed = true := by simpa [isGone, hs] using h
    refine ⟨?_, ?_, ?_, ?_, ?_, ?_, hidem⟩ <;>
      simp [cleanupViewer, handleZoomIn, handleZoomOut, switchImageryLayerP7,
        switchImageryLayerV1, addWeatherMarker, hs, hd]

/-- C8, witness for `c8_destroy_idempotent_and_noops`: a concrete
destroyed-but-still-referenced handle. -/
theorem c8_witness :
    isGone pageDead = true ∧
    (cleanupViewer pageDead = Except.ok pageDead ∧
     handleZoomIn pageDead = pageDead ∧
     handleZoomOut pageDead = pageDead ∧
     switchImageryLayerP7 ⟨false, true, false⟩ pageDead "Temperature" = pageDead ∧
     switchImageryLayerV1 ⟨false, false⟩ pageDead "Temperature" = pageDead ∧
     addWeatherMarker pageDead = pageDead ∧
     ∃ u, cleanupViewer pageReady = Except.ok u ∧ cleanupViewer u = Except.ok u) :=
  ⟨by decide,
    c8_destroy_idempotent_and_noops pageDead pageReady ⟨false, true, false⟩
      ⟨false, false⟩ "Temperature" (by decide)⟩

/-- Runtime environment the WebGL probe runs against: whether canvas
creation or context lookup throws, whether `window.WebGLRenderingContext`
exists, and whether a `webgl` or `experimental-webgl` context is
obtainable. -/
structure ProbeEnv where
  canvasThrows : Bool
  hasWebGLRenderingContext : Bool
  webglContext : Bool
  experimentalWebglContext : Bool
deriving DecidableEq, Repr

/-- Try-block body of `isWebGLSupported` (EarthViewerPage.tsx lines
51-61): may throw; otherwise the truthiness of
`window.WebGLRenderingContext && (getContext(webgl) || getContext(experimental-webgl))`. -/
def probeBody (e : ProbeEnv) : Except Unit Bool :=
  if e.canvasThrows then Except.error ()
  else Except.ok (e.hasWebGLRenderingContext &&
    (e.webglContext || e.experimentalWebglContext))

/-- The full probe: the catch clause at line 58-60 turns any exception
into `false`. -/
def isWebGLSupported (e : ProbeEnv) : Bool :=
  match probeBody e with
  | Except.ok b => b
  | Except.error _ => false

/-- Try-block body of `checkWebGLSupport` (SimpleEarthViewer.tsx lines
194-204): the `!!gl` truthiness of the two context lookups. -/
def probeBodySimple (e : ProbeEnv) : Except Unit Bool :=
  if e.canvasThrows then Except.error ()
  else Except.ok (e.webglContext || e.experimentalWebglContext)

/-- The SimpleEarthViewer probe with its catch clause (lines 201-203). -/
def checkWebGLSupport (e : ProbeEnv) : Bool :=
  match probeBodySimple e with
  | Except.ok b => b
  | Except.error _ => false

/-- C9: whenever the probe body raises an exception, both capability
probes catch it and return false (fail closed); the exception is never
propagated — both probes are total Bool-valued functions of the
environment, and the throwing runs of the two bodies coincide. -/
theorem c9_probe_fail_closed (e : ProbeEnv) (u : Unit)
    (h : probeBody e = Except.error u) :
    isWebGLSupported e = false ∧
    probeBodySimple e = Except.error u ∧
    checkWebGLSupport e = false := by
  have hc : e.canvasThrows = true := by
    by_cases hc : e.canvasThrows
    · exact hc
    · simp [probeBody, hc] at h
  refine ⟨?_, ?_, ?_⟩ <;>
    simp [isWebGLSupported, checkWebGLSupport, probeBody, probeBodySimple, hc]

/-- C9, witness for `c9_probe_fail_closed`: an environment in which the
canvas step throws even though contexts would be available. -/
theorem c9_witness :
    probeBody ⟨true, true, true, true⟩ = Except.error () ∧
    (isWebGLSupported ⟨true, true, true, true⟩ = false ∧
     probeBodySimple ⟨true, true, true, true⟩ = Except.error () ∧
     checkWebGLSupport ⟨true, true, true, true⟩ = false) :=
  ⟨rfl, c9_probe_fail_closed ⟨true, true, true, true⟩ () rfl⟩

end VisonEarth
